import Mathlib

/-!
Shallow embedding of the ABMOS agent-based-model repository (Python) in Lean 4,
used to settle the claims of the specification against the source.

Conventions of the embedding:
* numpy integer arrays become nested lists of `Int`; numpy indexing (including
  negative-index wrap-around and the `IndexError` on indices out of the valid
  range) is modelled by `npIdx`; a raised exception is modelled by `none`
  (grid code) or `Except.error` (graph code, where the exception class matters).
* Python floats become `ℚ` (no claim here depends on floating-point rounding).
* The unseeded `Random.choice` in `AgentSpace.generate_move` is modelled by an
  explicit `pick : Nat` parameter selecting `possible_moves[pick % len]`; on an
  empty sequence `Random.choice` raises `IndexError`, modelled by `none`.
* rustworkx `PyDiGraph` is modelled as a list of structural
  `(from, to, payload)` edges whose position is the edge index (the exercised
  graphs perform no removals).  `add_edges_from` is called by the source with
  `GraphEdge` payload objects, and the source consistently reads endpoints back
  from the payload fields, so insertion is modelled as recording the payload
  with the structural endpoints taken from its `from_node` / `to_node` fields.
-/

namespace ABMOS

/-- An agent (`agents.py`, class `Agent`): only the fields the claims read are
carried — `id`, `opinion`, `previous_opinion` (absent until first assigned,
hence an `Option`) and `position`. -/
structure Agent where
  id : Int
  opinion : ℚ
  previous_opinion : Option ℚ
  position : Int × Int
deriving DecidableEq

/-- The spatial grid (`agent_space.py`, class `AgentSpace`): `space` is the
`(xsize, ysize, max_agents_per_grid)` integer array, zero meaning an empty
slot.  Axis sizes are the actual list lengths, as in numpy. -/
structure AgentSpace where
  max_agents_per_grid : Nat
  space : List (List (List Int))
deriving DecidableEq

/-- numpy indexing on an axis of length `n`: indices in `[0, n)` are taken as
written, indices in `[-n, 0)` wrap around, anything else raises `IndexError`
(modelled as `none`). -/
def npIdx (n : Nat) (i : Int) : Option Nat :=
  if 0 ≤ i ∧ i < (n : Int) then some i.toNat
  else if -(n : Int) ≤ i ∧ i < 0 then some (i + n).toNat
  else none

/-- Reading the slot list of cell `self.space[x, y]`. -/
def getCell (g : AgentSpace) (x y : Int) : Option (List Int) :=
  match npIdx g.space.length x with
  | none => none
  | some ix =>
    match g.space.get? ix with
    | none => none
    | some row =>
      match npIdx row.length y with
      | none => none
      | some iy => row.get? iy

/-- Writing the slot list of cell `self.space[x, y]`. -/
def setCell (g : AgentSpace) (x y : Int) (cell : List Int) :
    Option (List (List (List Int))) :=
  match npIdx g.space.length x with
  | none => none
  | some ix =>
    match g.space.get? ix with
    | none => none
    | some row =>
      match npIdx row.length y with
      | none => none
      | some iy => some (g.space.set ix (row.set iy cell))

/-- `np.count_nonzero` on one cell's slot list: the cell's occupancy. -/
def countNonzero (cell : List Int) : Nat :=
  (cell.filter (fun v => v != 0)).length

/-- Total occupancy of the whole grid: occupied slots summed over all cells. -/
def totalOccupancy (g : AgentSpace) : Nat :=
  (g.space.map (fun row => (row.map countNonzero).sum)).sum

/-- The slot loop of `AgentSpace.add_agent`: `for i in range(max): if
slot != 0: continue else: slot = agent.id; return`.  `k` is the remaining
iteration budget, `i` the current slot; falling off the end of the range
leaves the cell unwritten; an out-of-range slot read raises (`none`). -/
def add_slots (cell : List Int) (idv : Int) : Nat → Nat → Option (List Int)
  | 0, _ => some cell
  | k + 1, i =>
    match cell.get? i with
    | none => none
    | some v => if v = 0 then some (cell.set i idv) else add_slots cell idv k (i + 1)

/-- `AgentSpace.add_agent(x, y, agent)` (agent_space.py:61-78).  Returns the
updated grid and the agent (which the source never mutates here); `none` is a
raised `IndexError`. -/
def add_agent (g : AgentSpace) (x y : Int) (a : Agent) :
    Option (AgentSpace × Agent) :=
  match getCell g x y with
  | none => none
  | some cell =>
    if countNonzero cell ≥ g.max_agents_per_grid then some (g, a)
    else
      match add_slots cell a.id g.max_agents_per_grid 0 with
      | none => none
      | some cell' =>
        match setCell g x y cell' with
        | none => none
        | some sp => some ({ g with space := sp }, a)

/-- The slot loop of `AgentSpace.remove_agent`: first slot equal to
`agent.id` is zeroed; `some none` means the loop finished without a match. -/
def remove_slots (cell : List Int) (idv : Int) : Nat → Nat → Option (Option (List Int))
  | 0, _ => some none
  | k + 1, i =>
    match cell.get? i with
    | none => none
    | some v =>
      if v = idv then some (some (cell.set i 0)) else remove_slots cell idv k (i + 1)

/-- `AgentSpace.remove_agent(agent)` (agent_space.py:80-93): zeroes the first
slot holding `agent.id` at the agent's recorded position and resets the
position to `(0, 0)`; no effect when the id is not found.  With
`max_agents_per_grid = 0` the Python loop body never runs, so the cell is
never indexed. -/
def remove_agent (g : AgentSpace) (a : Agent) : Option (AgentSpace × Agent) :=
  if g.max_agents_per_grid = 0 then some (g, a)
  else
    match getCell g a.position.1 a.position.2 with
    | none => none
    | some cell =>
      match remove_slots cell a.id g.max_agents_per_grid 0 with
      | none => none
      | some none => some (g, a)
      | some (some cell') =>
        match setCell g a.position.1 a.position.2 cell' with
        | none => none
        | some sp => some ({ g with space := sp }, { a with position := (0, 0) })

/-- The cell visiting order of the double loop in
`AgentSpace.check_neighbours`: `i` (the x offset) is the outer loop, `j` (the
y offset) the inner one, centre skipped. -/
def neighbour_offsets : List (Int × Int) :=
  [(-1, -1), (-1, 0), (-1, 1), (0, -1), (0, 1), (1, -1), (1, 0), (1, 1)]

/-- `AgentSpace.check_neighbours(agent)` (agent_space.py:95-112): for each of
the 8 surrounding cells, in loop order, records `np.sum(self.space[i, j])` —
the SUM of the stored agent ids, not the number of occupied slots. -/
def check_neighbours (g : AgentSpace) (a : Agent) : Option (List Int) :=
  neighbour_offsets.mapM (fun d =>
    match getCell g (a.position.1 + d.1) (a.position.2 + d.2) with
    | none => none
    | some cell => some cell.sum)

/-- The `match chosen_move` table of `AgentSpace.generate_move`
(agent_space.py:132-148), default `(0, 0)` included. -/
def move_offset : Nat → Int × Int
  | 0 => (-1, -1)
  | 1 => (0, -1)
  | 2 => (1, -1)
  | 3 => (-1, 0)
  | 4 => (1, 0)
  | 5 => (-1, 1)
  | 6 => (0, 1)
  | 7 => (1, 1)
  | _ => (0, 0)

/-- `AgentSpace.generate_move(agent)` (agent_space.py:114-152).  Note two
features taken from the source verbatim: the guard is
`len(num_neighbours) <= 0` (always false — the list always has 8 entries),
not `len(possible_moves) <= 0`; and `Random.choice` on an empty
`possible_moves` raises `IndexError` (here `none`, with the drawn element
`possible_moves[pick % len]` for the explicit randomness parameter `pick`). -/
def generate_move (g : AgentSpace) (a : Agent) (pick : Nat) : Option (Int × Int) :=
  match check_neighbours g a with
  | none => none
  | some num_neighbours =>
    let possible_moves := (List.range num_neighbours.length).filter
      (fun i => decide ((num_neighbours.get? i).getD 0 < (g.max_agents_per_grid : Int)))
    if num_neighbours.length ≤ 0 then some a.position
    else
      match possible_moves.get? (pick % possible_moves.length) with
      | none => none
      | some chosen =>
        some (a.position.1 + (move_offset chosen).1,
              a.position.2 + (move_offset chosen).2)

/-- `AgentSpace.move_agent(agent)` (agent_space.py:154-165): generate the
destination, remove the agent, add it at the destination, then set
`agent.position` to the destination unconditionally. -/
def move_agent (g : AgentSpace) (a : Agent) (pick : Nat) :
    Option (AgentSpace × Agent) :=
  match generate_move g a pick with
  | none => none
  | some newc =>
    match remove_agent g a with
    | none => none
    | some (g1, a1) =>
      match add_agent g1 newc.1 newc.2 a1 with
      | none => none
      | some (g2, a2) => some (g2, { a2 with position := newc })

/-- `AgentSet.add(agent)` (agents.py:223-235): reuse the first `None` slot of
the backing series, otherwise append; either way the agent's `id` becomes the
index it was stored at. -/
def agentset_add (agents : List (Option Agent)) (a : Agent) :
    List (Option Agent) × Agent :=
  match agents.findIdx? (fun o => o.isNone) with
  | some idx =>
    (agents.set idx (some { a with id := (idx : Int) }), { a with id := (idx : Int) })
  | none =>
    (agents ++ [some { a with id := (agents.length : Int) }],
     { a with id := (agents.length : Int) })

/-- A graph edge payload (`graphs.py`, class `GraphEdge`).  `GraphEdge.__init__`
only annotates `self.index` without assigning it, so the attribute is absent
until `update_edge_indices` sets it: `Option Nat`, reading `none` raises
`AttributeError`. -/
structure GraphEdge where
  index : Option Nat
  weighting : ℚ
  from_node : Int
  to_node : Int
  hierarchy : String
deriving DecidableEq

/-- What a rustworkx edge payload of this code base can be at runtime: a
`GraphEdge`, or — after `Graph.change_weights` takes its update path and calls
`update_edge_by_index(edge_index, updated_edge)` with `updated_edge` being the
LIST `[GraphEdge(...)]` — a one-element Python list of edges. -/
inductive EdgePayload where
  | e : GraphEdge → EdgePayload
  | lst : List GraphEdge → EdgePayload
deriving DecidableEq

/-- One relationship layer (`graphs.py`, class `Graph`): the rustworkx
`PyDiGraph` is kept as its structural `(from, to, payload)` edge list, list
position being the edge index (no claim exercises node or edge removal, so
indices stay dense).  Node storage and the cached counts are not read by any
claim and are omitted. -/
structure Graph where
  name : String
  edges : List (Int × Int × EdgePayload)
deriving DecidableEq

/-- Reading `edge.from_node` on a payload; a Python list has no such
attribute, so a list payload raises `AttributeError`. -/
def payload_from_node : EdgePayload → Except String Int
  | .e ge => .ok ge.from_node
  | .lst _ => .error "AttributeError"

/-- Reading `edge.to_node` on a payload. -/
def payload_to_node : EdgePayload → Except String Int
  | .e ge => .ok ge.to_node
  | .lst _ => .error "AttributeError"

/-- Reading `edge.index` on a payload: `AttributeError` when the attribute was
never assigned or the payload is a list. -/
def payload_index : EdgePayload → Except String Nat
  | .e ge =>
    match ge.index with
    | some i => .ok i
    | none => .error "AttributeError"
  | .lst _ => .error "AttributeError"

/-- Writing `edge.index = index` on a payload, as `update_edge_indices` does;
attribute assignment on a Python list object raises `AttributeError`. -/
def payload_set_index : EdgePayload → Nat → Except String EdgePayload
  | .e ge, i => .ok (.e { ge with index := some i })
  | .lst _, _ => .error "AttributeError"

/-- The loop of `Graph.update_edge_indices` over `edge_index_map().items()`:
assign each payload its edge index in index order, raising at the first list
payload. -/
def update_payloads : List (Int × Int × EdgePayload) → Nat →
    Except String (List (Int × Int × EdgePayload))
  | [], _ => .ok []
  | (f, t, p) :: rest, i =>
    match payload_set_index p i with
    | .error msg => .error msg
    | .ok p' =>
      match update_payloads rest (i + 1) with
      | .error msg => .error msg
      | .ok rest' => .ok ((f, t, p') :: rest')

/-- `Graph.update_edge_indices` (graphs.py:125-132). -/
def update_edge_indices (g : Graph) : Except String Graph :=
  match update_payloads g.edges 0 with
  | .error msg => .error msg
  | .ok es => .ok { g with edges := es }

/-- rustworkx `add_edges_from`, as this code base uses it: the source always
passes a list of `GraphEdge` payload objects and reads endpoints back from the
payload fields, so insertion records each payload with its `from_node` /
`to_node` as the structural endpoints. -/
def add_edges_from (g : Graph) (ges : List GraphEdge) : Graph :=
  { g with edges := g.edges ++ ges.map (fun ge => (ge.from_node, ge.to_node, .e ge)) }

/-- rustworkx `update_edge_by_index(edge_index, payload)`: replaces the payload
of the edge at that index, keeping the structural endpoints; an invalid index
raises. -/
def update_edge_by_index (g : Graph) (idx : Nat) (p : EdgePayload) :
    Except String Graph :=
  match g.edges.get? idx with
  | none => .error "IndexError"
  | some (f, t, _) => .ok { g with edges := g.edges.set idx (f, t, p) }

/-- The edge scan of `Graph.relationship_exists`: first edge matching either
direction, returning its `edge.index` attribute. -/
def rel_scan (n1 n2 : Int) : List (Int × Int × EdgePayload) →
    Except String (Option Nat)
  | [] => .ok none
  | (_, _, p) :: rest =>
    match payload_from_node p with
    | .error msg => .error msg
    | .ok f =>
      match payload_to_node p with
      | .error msg => .error msg
      | .ok t =>
        if (f = n1 ∧ t = n2) ∨ (f = n2 ∧ t = n1) then
          match payload_index p with
          | .error msg => .error msg
          | .ok i => .ok (some i)
        else rel_scan n1 n2 rest

/-- `Graph.relationship_exists(node_1, node_2)` (graphs.py:159-171): a
SYMMETRIC existence check — an edge in either direction matches — whose result
is the matching edge's stored index, `None` when nothing matches. -/
def relationship_exists (g : Graph) (n1 n2 : Int) : Except String (Option Nat) :=
  rel_scan n1 n2 g.edges

/-- rustworkx `adj_direction(node, incoming)[other]` as used by
`get_relationships`: the payload of the structural edge `f → t`, `KeyError`
(here `none`) when absent. -/
def find_structural (g : Graph) (f t : Int) : Option EdgePayload :=
  (g.edges.find? (fun e => decide (e.1 = f) && decide (e.2.1 = t))).map (·.2.2)

/-- `Graph.get_relationships(node_1, node_2)` (graphs.py:173-197).  The source
guard is `if not self.relationship_exists(node_1, node_2)`, and Python
truthiness makes the integer index `0` falsy exactly like `None`, so a match
whose edge index is 0 also returns `None`.  The returned dictionary (kept here
as a key-value list in insertion order) maps each existing direction to that
edge's PAYLOAD, the `(node_2, node_1)` entry being probed first. -/
def get_relationships (g : Graph) (n1 n2 : Int) :
    Except String (Option (List ((Int × Int) × EdgePayload))) :=
  match relationship_exists g n1 n2 with
  | .error msg => .error msg
  | .ok none => .ok none
  | .ok (some 0) => .ok none
  | .ok (some _) =>
    let d1 := match find_structural g n2 n1 with
      | some p => [((n2, n1), p)]
      | none => []
    let d2 := match find_structural g n1 n2 with
      | some p => [((n1, n2), p)]
      | none => []
    .ok (some (d1 ++ d2))

/-- `Graph.change_weights(node_1, node_2, value)` (graphs.py:199-214): builds
`updated_edge = [GraphEdge(self.name, node_1, node_2, value)]` (the index
attribute unassigned); when `relationship_exists` found an index the LIST
itself becomes the payload via `update_edge_by_index`, otherwise the edge is
inserted; `update_edge_indices` then runs either way. -/
def change_weights (g : Graph) (n1 n2 : Int) (value : ℚ) : Except String Graph :=
  match relationship_exists g n1 n2 with
  | .error msg => .error msg
  | .ok edge_index =>
    let updated_edge : List GraphEdge := [⟨none, value, n1, n2, g.name⟩]
    match edge_index with
    | some idx =>
      match update_edge_by_index g idx (.lst updated_edge) with
      | .error msg => .error msg
      | .ok g' => update_edge_indices g'
    | none => update_edge_indices (add_edges_from g updated_edge)

/-- Modelled from the spec: `neighbour_influences` is called by
`ABModel.iterate` (`hierarchy.neighbour_influences(agent)`) but no such method
exists anywhere in the source.  Per the spec, one layer's contribution for an
agent is "a real number derived from the weighted edges incident to the agent
and the neighbours' current opinions"; following the spec's own end-to-end
scenario (edge 0→1, weight 1.0 pulls agent 0 toward agent 1's opinion), the
contribution is the sum over edges leaving the agent's node of the edge weight
times the opinion currently held by the node at the edge's other end. -/
def neighbour_influences (g : Graph) (aid : Int) (opinions : List ℚ) : ℚ :=
  (g.edges.map (fun e =>
    match e.2.2 with
    | .e ge =>
      if ge.from_node = aid ∧ 0 ≤ ge.to_node then
        ge.weighting * (opinions.getD ge.to_node.toNat 0)
      else 0
    | .lst _ => 0)).sum

/-- The opinion phase of `ABModel.iterate` (model.py:93-99), exactly as the
source sequences it: agents are visited in order; each visit first stores
`previous_opinion = opinion` on that agent, then computes the per-layer
influences READING THE CURRENT agent list (which already contains the opinion
writes of every agent visited earlier in the same phase), then adds the total
to the agent's opinion in place. -/
def opinion_phase (graphs : List Graph) (agents : List Agent) : List Agent :=
  (List.range agents.length).foldl (fun ags i =>
    match ags.get? i with
    | none => ags
    | some a =>
      let ags1 := ags.set i { a with previous_opinion := some a.opinion }
      let total := (graphs.map
        (fun h => neighbour_influences h a.id (ags1.map (·.opinion)))).sum
      ags1.set i { a with previous_opinion := some a.opinion,
                          opinion := a.opinion + total }) agents

/-- The opinion phase as the specification demands it (synchronous update):
every agent's influences are computed from the opinions held before the phase
began. -/
def sync_opinion_phase (graphs : List Graph) (agents : List Agent) : List Agent :=
  agents.map (fun a =>
    { a with previous_opinion := some a.opinion,
             opinion := a.opinion + (graphs.map
               (fun h => neighbour_influences h a.id (agents.map (·.opinion)))).sum })

/-- Number of parameters of `AgentSet.__init__` besides `self` (agents.py:171):
none. -/
def AgentSet_init_nparams : Nat := 0

/-- Number of parameters of `GraphSet.__init__` besides `self` (graphs.py:259):
one, `graphs`, with a default. -/
def GraphSet_init_nparams : Nat := 1

/-- Python call binding at signature level: `nargs` positional arguments bind
against `nparams` parameters (all relevant parameters carry defaults), a
surplus raising `TypeError`. -/
def bindsOk (nargs nparams : Nat) : Bool := nargs ≤ nparams

/-- Outcome of running a constructor body far enough to decide the claim. -/
inductive InitResult where
  | ok
  | typeError
deriving DecidableEq

/-- `ABModel.__init__` (model.py:17-40) at signature level: independent of the
`iterations` / `xlims` / `ylims` arguments, it first evaluates
`GraphSet(self)` and then `AgentSet(self)`, each passing one positional
argument; a binding failure raises `TypeError` before the remaining fields are
assigned.  (Whether the body of `GraphSet.__init__` itself completes on a
non-iterable argument is a property of the external polars library; the model
lets it complete, which only makes the `TypeError` conclusion harder.) -/
def ABModel_init (iterations : Nat) (xlims ylims : Option (Int × Int)) : InitResult :=
  if bindsOk 1 GraphSet_init_nparams then
    if bindsOk 1 AgentSet_init_nparams then .ok else .typeError
  else .typeError

/-! ## Concrete instances used by the claims -/

/-- A 3×3 grid with one slot per cell: filler agents everywhere except cell
(0, 1); the probed agent (id 1) sits at (1, 1). -/
def spaceC2 : AgentSpace :=
  { max_agents_per_grid := 1,
    space := [[[2], [0], [3]],
              [[4], [1], [5]],
              [[6], [7], [8]]] }

/-- The probed agent: id 1, recorded position (1, 1). -/
def agentC2 : Agent := { id := 1, opinion := 0, previous_opinion := none, position := (1, 1) }

/-- A 3×3 grid with one slot per cell, every cell occupied: all 8 Moore
neighbours of (1, 1) are full. -/
def spaceC3 : AgentSpace :=
  { max_agents_per_grid := 1,
    space := [[[2], [3], [4]],
              [[5], [1], [6]],
              [[7], [8], [9]]] }

/-- A 3×3 grid, two slots per cell: a single neighbour with id 5 occupies one
slot of cell (0, 0); the probed agent (id 1) sits at (1, 1). -/
def spaceC6 : AgentSpace :=
  { max_agents_per_grid := 2,
    space := [[[5, 0], [0, 0], [0, 0]],
              [[0, 0], [1, 0], [0, 0]],
              [[0, 0], [0, 0], [0, 0]]] }

/-- An empty 2×2 grid, two slots per cell. -/
def spaceC4 : AgentSpace :=
  { max_agents_per_grid := 2,
    space := [[[0, 0], [0, 0]],
              [[0, 0], [0, 0]]] }

/-- An agent whose recorded position is (5, 5). -/
def agentC4 : Agent := { id := 1, opinion := 0, previous_opinion := none, position := (5, 5) }

/-- A 1×1 grid whose single cell already holds two agents (ids 1 and 2),
`max_agents_per_grid = 2`. -/
def spaceC5 : AgentSpace :=
  { max_agents_per_grid := 2, space := [[[1, 2]]] }

/-- A 2×2 grid, two slots per cell, partially occupied. -/
def spaceC10 : AgentSpace :=
  { max_agents_per_grid := 2,
    space := [[[3, 0], [0, 0]],
              [[0, 0], [4, 4]]] }

/-- A fresh, empty layer, as `Graph("Religion")` builds it. -/
def graphC7 : Graph := { name := "Religion", edges := [] }

/-- The layer `graphC7` after a first `change_weights(0, 1, 1)`: one directed
edge 0 → 1 of weight 1, its payload's index assigned 0. -/
def graphC7_once : Graph :=
  { name := "Religion",
    edges := [(0, 1, .e { index := some 0, weighting := 1, from_node := 0,
                          to_node := 1, hierarchy := "Religion" })] }

/-- A layer holding exactly one directed edge 0 → 1 (weight 4/5), stored at
edge index 0 — the layout `add_edges` produces for the first edge ever
inserted. -/
def graphC8 : Graph :=
  { name := "Religion",
    edges := [(0, 1, .e { index := some 0, weighting := 4/5, from_node := 0,
                          to_node := 1, hierarchy := "Religion" })] }

/-- One layer with the two directed edges 0 → 1 and 1 → 0, both of weight 1:
each agent's influence is the other's opinion. -/
def graphC1 : Graph :=
  { name := "L",
    edges := [(0, 1, .e { index := some 0, weighting := 1, from_node := 0,
                          to_node := 1, hierarchy := "L" }),
              (1, 0, .e { index := some 1, weighting := 1, from_node := 1,
                          to_node := 0, hierarchy := "L" })] }

/-- Two agents, both starting at opinion 1/2, ids 0 and 1 in list order. -/
def agentsC1 : List Agent :=
  [{ id := 0, opinion := 1/2, previous_opinion := none, position := (0, 0) },
   { id := 1, opinion := 1/2, previous_opinion := none, position := (0, 0) }]

/-! ## Helper lemmas -/

/-- Writing back the element already stored at an index leaves a list
unchanged. -/
theorem list_set_self {α : Type} : ∀ (l : List α) (i : Nat) (a : α),
    l.get? i = some a → l.set i a = l
  | [], _, _, h => by cases h
  | x :: xs, 0, a, h => by
    have hx : x = a := by injection h
    rw [← hx]
    rfl
  | x :: xs, i + 1, a, h => by
    have htail : xs.set i a = xs := list_set_self xs i a h
    show x :: xs.set i a = x :: xs
    rw [htail]

/-- Writing id 0 with the `add_agent` slot loop never changes the cell: the
loop either falls off the end, or writes 0 over the first 0.  Requires the
scanned range to stay inside the cell, as the numpy cell layout guarantees. -/
theorem add_slots_zero (cell : List Int) :
    ∀ (k i : Nat), i + k ≤ cell.length → add_slots cell 0 k i = some cell := by
  intro k
  induction k with
  | zero => intro i _; rfl
  | succ k ih =>
    intro i hik
    have hi : i < cell.length := by omega
    have hget : cell.get? i = some (cell.get ⟨i, hi⟩) := List.get?_eq_get hi
    rw [add_slots]
    simp only [hget]
    by_cases h0 : cell.get ⟨i, hi⟩ = 0
    · rw [if_pos h0, ← h0, list_set_self cell i _ hget]
    · rw [if_neg h0]
      exact ih (i + 1) (by omega)

/-- A cell whose occupancy is below its slot count contains a zero slot. -/
theorem countNonzero_lt_exists_zero (cell : List Int)
    (h : countNonzero cell < cell.length) :
    ∃ j, j < cell.length ∧ cell.get? j = some 0 := by
  by_contra hno
  push_neg at hno
  have hall : ∀ v ∈ cell, (fun v => v != 0) v = true := by
    intro v hv
    rcases List.mem_iff_get.mp hv with ⟨⟨j, hj⟩, rfl⟩
    have := hno j hj
    have hne : cell.get ⟨j, hj⟩ ≠ 0 := by
      intro h0
      exact this (by rw [List.get?_eq_get hj, h0])
    simpa using hne
  have : cell.filter (fun v => v != 0) = cell := List.filter_eq_self.mpr hall
  rw [countNonzero, this] at h
  omega

/-- The slot loop of `add_agent` writes `idv` into the first zero slot of the
scanned range, provided such a slot exists and the range stays in bounds. -/
theorem add_slots_first_zero (cell : List Int) (idv : Int) :
    ∀ (k i : Nat), i + k ≤ cell.length →
    (∃ j, i ≤ j ∧ j < i + k ∧ cell.get? j = some 0) →
    ∃ j, i ≤ j ∧ cell.get? j = some 0 ∧
      (∀ m, i ≤ m → m < j → cell.get? m ≠ some 0) ∧
      add_slots cell idv k i = some (cell.set j idv) := by
  intro k
  induction k with
  | zero =>
    intro i _ ⟨j, hij, hj, _⟩
    omega
  | succ k ih =>
    intro i hik ⟨j, hij, hjk, hj0⟩
    have hi : i < cell.length := by omega
    have hget : cell.get? i = some (cell.get ⟨i, hi⟩) := List.get?_eq_get hi
    by_cases h0 : cell.get ⟨i, hi⟩ = 0
    · refine ⟨i, le_refl i, by rw [hget, h0], ?_, ?_⟩
      · intro m him hmi; omega
      · rw [add_slots]
        simp only [hget]
        rw [if_pos h0]
    · have hij1 : i + 1 ≤ j := by
        rcases Nat.eq_or_lt_of_le hij with he | hlt
        · exfalso
          rw [← he, hget] at hj0
          exact h0 (by injection hj0)
        · omega
      obtain ⟨j', hij', hj0', hmin', heq'⟩ :=
        ih (i + 1) (by omega) ⟨j, hij1, by omega, hj0⟩
      refine ⟨j', by omega, hj0', ?_, ?_⟩
      · intro m him hmj'
        rcases Nat.eq_or_lt_of_le him with he | hlt
        · rw [← he, hget]
          intro hc
          exact h0 (by injection hc)
        · exact hmin' m hlt hmj'
      · rw [add_slots]
        simp only [hget]
        rw [if_neg h0]
        exact heq'

/-- When `getCell` succeeds, `setCell` succeeds on the same coordinates. -/
theorem setCell_of_getCell (g : AgentSpace) (x y : Int) (cell : List Int)
    (h : getCell g x y = some cell) (cell' : List Int) :
    ∃ sp, setCell g x y cell' = some sp := by
  unfold getCell at h
  unfold setCell
  cases hx : npIdx g.space.length x with
  | none => rw [hx] at h; exact Option.noConfusion h
  | some ix =>
    simp only [hx] at h ⊢
    cases hrow : g.space.get? ix with
    | none => rw [hrow] at h; exact Option.noConfusion h
    | some row =>
      simp only [hrow] at h ⊢
      cases hy : npIdx row.length y with
      | none => rw [hy] at h; exact Option.noConfusion h
      | some iy =>
        refine ⟨g.space.set ix (row.set iy cell'), ?_⟩
        simp only [hy]

/-- Writing back the very cell read by `getCell` reproduces the grid. -/
theorem setCell_getCell_self (g : AgentSpace) (x y : Int) (cell : List Int)
    (h : getCell g x y = some cell) :
    setCell g x y cell = some g.space := by
  unfold getCell at h
  unfold setCell
  cases hx : npIdx g.space.length x with
  | none => rw [hx] at h; exact Option.noConfusion h
  | some ix =>
    simp only [hx] at h ⊢
    cases hrow : g.space.get? ix with
    | none => rw [hrow] at h; exact Option.noConfusion h
    | some row =>
      simp only [hrow] at h ⊢
      cases hy : npIdx row.length y with
      | none => rw [hy] at h; exact Option.noConfusion h
      | some iy =>
        simp only [hy] at h ⊢
        rw [list_set_self row iy cell h, list_set_self g.space ix row hrow]

/-! ## Claim theorems -/

/-- C1.  The opinion phase of `ABModel.iterate` is NOT synchronous: with two
agents at opinion 1/2 linked by weight-1 edges in both directions, the in-place
sequential loop gives agent 1 the opinion 3/2 — its influence read agent 0's
opinion AFTER agent 0's same-phase write — whereas computing every influence
from the pre-phase snapshot (as the claim demands) gives 1.  The
`neighbour_influences` method itself is absent from the source and is modelled
from the spec. -/
theorem claim_C1_opinion_phase_not_synchronous :
    ((opinion_phase [graphC1] agentsC1).map (·.opinion)) = [1, 3/2] ∧
    ((sync_opinion_phase [graphC1] agentsC1).map (·.opinion)) = [1, 1] ∧
    (3/2 : ℚ) ≠ 1 := by
  refine ⟨?_, ?_, by norm_num⟩
  · simp [opinion_phase, graphC1, agentsC1, neighbour_influences, List.range_succ]
    norm_num
  · simp [sync_opinion_phase, graphC1, agentsC1, neighbour_influences]
    norm_num

/-- C2.  `move_agent` does not conserve total occupancy: on `spaceC2` the only
admissible choice index is 1 (checked cell (0, 1) is the only one below
capacity), but the transposed direction table sends the agent to (1, 0), which
IS full, so `add_agent` rejects the insertion after `remove_agent` has already
cleared the old slot — the grid drops from 8 occupied slots to 7 and the agent
occupies no cell while its recorded position says (1, 0). -/
theorem claim_C2_move_agent_drops_agent :
    totalOccupancy spaceC2 = 8 ∧
    (move_agent spaceC2 agentC2 0).map (fun p => totalOccupancy p.1) = some 7 ∧
    (move_agent spaceC2 agentC2 0).map (fun p => p.2.position) = some (1, 0) := by
  refine ⟨by decide, by decide, by decide⟩

/-- C3.  When all 8 Moore-neighbourhood cells are at capacity, `generate_move`
does not return the current position: `possible_moves` is empty, the dead
guard `len(num_neighbours) <= 0` cannot fire, and `Random.choice` raises
`IndexError` (`none`), whatever the random draw. -/
theorem claim_C3_generate_move_raises_when_all_full (pick : Nat) :
    generate_move spaceC3 agentC2 pick = none := by
  have h : check_neighbours spaceC3 agentC2 = some [2, 3, 4, 5, 6, 7, 8, 9] := by decide
  have hfilter : (List.range (8 : Nat)).filter
      (fun i => decide ((([2, 3, 4, 5, 6, 7, 8, 9] : List Int).get? i).getD 0 <
        (spaceC3.max_agents_per_grid : Int))) = [] := by decide
  rw [generate_move]
  simp only [h, hfilter]
  rfl

/-- C3 witness: the theorem applied at a concrete draw. -/
theorem claim_C3_witness : generate_move spaceC3 agentC2 0 = none :=
  claim_C3_generate_move_raises_when_all_full 0

/-- C4 counterexample: `add_agent` never touches `agent.position` — adding the
agent recorded at (5, 5) to the empty in-bounds cell (1, 0) succeeds, yet the
agent's position still reads (5, 5), not (1, 0). -/
theorem claim_C4_counterexample_position_not_set :
    (add_agent spaceC4 1 0 agentC4).map (fun p => p.2.position) = some (5, 5) ∧
    ((5 : Int), (5 : Int)) ≠ ((1 : Int), (0 : Int)) := by
  refine ⟨by decide, by decide⟩

/-- C4 (amended).  For an in-bounds cell below capacity, `add_agent` writes the
agent's id into the first free (zero) slot of that cell and leaves the agent —
its position included — unchanged; `agent.position` is NOT set to (x, y) (the
caller `move_agent` does that separately). -/
theorem claim_C4_add_agent_first_free_slot (g : AgentSpace) (x y : Int)
    (a : Agent) (cell : List Int)
    (hc : getCell g x y = some cell)
    (hlen : cell.length = g.max_agents_per_grid)
    (hnf : countNonzero cell < g.max_agents_per_grid) :
    ∃ j sp, cell.get? j = some 0 ∧
      (∀ m, m < j → cell.get? m ≠ some 0) ∧
      setCell g x y (cell.set j a.id) = some sp ∧
      add_agent g x y a = some ({ g with space := sp }, a) := by
  have hzero : ∃ j, j < cell.length ∧ cell.get? j = some 0 :=
    countNonzero_lt_exists_zero cell (by omega)
  obtain ⟨j0, hj0len, hj00⟩ := hzero
  obtain ⟨j, hj, hjz, hjmin, hslots⟩ :=
    add_slots_first_zero cell a.id g.max_agents_per_grid 0
      (by omega) ⟨j0, by omega, by omega, hj00⟩
  obtain ⟨sp, hsp⟩ := setCell_of_getCell g x y cell hc (cell.set j a.id)
  refine ⟨j, sp, hjz, ?_, hsp, ?_⟩
  · intro m hm
    exact hjmin m (Nat.zero_le m) hm
  · rw [add_agent, hc]
    simp only
    rw [if_neg (by omega), hslots]
    simp only [hsp]

/-- C4 witness: the amended theorem at the concrete counterexample input. -/
theorem claim_C4_witness :
    getCell spaceC4 1 0 = some [0, 0] ∧
    ([0, 0] : List Int).length = spaceC4.max_agents_per_grid ∧
    countNonzero [0, 0] < spaceC4.max_agents_per_grid ∧
    ∃ j sp, ([0, 0] : List Int).get? j = some 0 ∧
      (∀ m, m < j → ([0, 0] : List Int).get? m ≠ some 0) ∧
      setCell spaceC4 1 0 (([0, 0] : List Int).set j agentC4.id) = some sp ∧
      add_agent spaceC4 1 0 agentC4 = some ({ spaceC4 with space := sp }, agentC4) :=
  ⟨by decide, by decide, by decide,
   claim_C4_add_agent_first_free_slot spaceC4 1 0 agentC4 [0, 0]
     (by decide) (by decide) (by decide)⟩

/-- C5.  A cell already holding `max_agents_per_grid` agents rejects the
addition with no exception and no effect: the grid and the agent (its position
included) come back exactly unchanged. -/
theorem claim_C5_full_cell_rejected_unchanged (g : AgentSpace) (x y : Int)
    (a : Agent) (cell : List Int)
    (hc : getCell g x y = some cell)
    (hfull : countNonzero cell = g.max_agents_per_grid) :
    add_agent g x y a = some (g, a) := by
  rw [add_agent, hc]
  simp only
  rw [if_pos (by omega)]

/-- C5 witness: the theorem at the full 1×1 grid. -/
theorem claim_C5_witness :
    getCell spaceC5 0 0 = some [1, 2] ∧
    countNonzero [1, 2] = spaceC5.max_agents_per_grid ∧
    add_agent spaceC5 0 0 agentC4 = some (spaceC5, agentC4) :=
  ⟨by decide, by decide,
   claim_C5_full_cell_rejected_unchanged spaceC5 0 0 agentC4 [1, 2]
     (by decide) (by decide)⟩

/-- C6.  `check_neighbours` reports `np.sum` of the stored ids, not the number
of agents: with a single neighbour of id 5 in cell (0, 0), the first entry is
5 although the cell's occupancy is 1. -/
theorem claim_C6_check_neighbours_sums_ids :
    check_neighbours spaceC6 agentC2 = some [5, 0, 0, 0, 0, 0, 0, 0] ∧
    (getCell spaceC6 0 0).map countNonzero = some 1 ∧
    (5 : Int) ≠ 1 := by
  refine ⟨by decide, by decide, by decide⟩

/-- C7.  Calling `change_weights(0, 1, w1)` on a fresh layer inserts the edge
0 → 1 with weight `w1` (payload index then 0), but a second call
`change_weights(0, 1, w2)` does not leave one edge of weight `w2`: it replaces
the payload by the one-element LIST `updated_edge`, and the ensuing
`update_edge_indices` raises `AttributeError` trying to assign `.index` on a
Python list. -/
theorem claim_C7_change_weights_second_call_crashes :
    change_weights graphC7 0 1 1 = .ok graphC7_once ∧
    (change_weights graphC7 0 1 1).bind (fun g1 => change_weights g1 0 1 2) =
      .error "AttributeError" :=
  ⟨rfl, rfl⟩

/-- C8.  `get_relationships` guards with `if not relationship_exists(...)`, so
the integer edge index 0 is treated like `None`: on a layer whose only edge is
0 → 1 stored at index 0, the relationship exists (the check returns index 0),
yet `get_relationships(0, 1)` returns `None` instead of the mapping holding
the 0 → 1 entry. -/
theorem claim_C8_get_relationships_none_at_index_zero :
    relationship_exists graphC8 0 1 = .ok (some 0) ∧
    get_relationships graphC8 0 1 = .ok none :=
  ⟨rfl, rfl⟩

/-- C9 counterexample: `GraphSet.__init__` DOES accept one positional argument
(its `graphs` parameter), so the claim's stated cause — that both the GraphSet
and AgentSet constructors accept no such argument — is wrong for GraphSet. -/
theorem claim_C9_counterexample_graphset_accepts_arg :
    bindsOk 1 GraphSet_init_nparams = true := rfl

/-- C9 (amended).  For every combination of constructor arguments,
`ABModel.__init__` raises `TypeError` before completing, because
`AgentSet(self)` passes one positional argument to a constructor whose
signature (beyond `self`) has no parameters; `GraphSet`'s signature, by
contrast, does accept the argument.  No `ABModel` instance can be created
through the public constructor. -/
theorem claim_C9_amended_typeerror_from_agentset (iterations : Nat)
    (xlims ylims : Option (Int × Int)) :
    ABModel_init iterations xlims ylims = .typeError ∧
    bindsOk 1 AgentSet_init_nparams = false :=
  ⟨rfl, rfl⟩

/-- C10.  The first agent added to an empty `AgentSet` is assigned id 0, which
is the grid's empty-slot sentinel: adding that agent to any readable cell whose
slot list has the constructed length returns the grid completely unchanged
(the write puts 0 over the first 0, or the full-cell branch rejects), so the
agent is never counted by occupancy or neighbour checks. -/
theorem claim_C10_id_zero_agent_invisible (g : AgentSpace) (x y : Int)
    (a : Agent) (cell : List Int)
    (hc : getCell g x y = some cell)
    (hlen : cell.length = g.max_agents_per_grid) :
    ((agentset_add [] a).2).id = 0 ∧
    add_agent g x y ((agentset_add [] a).2) = some (g, (agentset_add [] a).2) := by
  have hid : ((agentset_add [] a).2).id = 0 := rfl
  refine ⟨hid, ?_⟩
  rw [add_agent, hc]
  simp only
  by_cases hfull : countNonzero cell ≥ g.max_agents_per_grid
  · rw [if_pos hfull]
  · rw [if_neg hfull]
    rw [hid, add_slots_zero cell g.max_agents_per_grid 0 (by omega)]
    simp only [setCell_getCell_self g x y cell hc]

/-- C10 witness: the theorem at a concrete partially occupied grid. -/
theorem claim_C10_witness :
    getCell spaceC10 0 1 = some [0, 0] ∧
    ([0, 0] : List Int).length = spaceC10.max_agents_per_grid ∧
    ((agentset_add [] agentC4).2).id = 0 ∧
    add_agent spaceC10 0 1 ((agentset_add [] agentC4).2) =
      some (spaceC10, (agentset_add [] agentC4).2) :=
  ⟨by decide, by decide,
   (claim_C10_id_zero_agent_invisible spaceC10 0 1 agentC4 [0, 0]
     (by decide) (by decide)).1,
   (claim_C10_id_zero_agent_invisible spaceC10 0 1 agentC4 [0, 0]
     (by decide) (by decide)).2⟩

end ABMOS
